import Mathlib

/- Shallow embedding of the polymarket_bot trading orchestrator core
   (risk manager, trade simulator, strategy run loop, simulated-trade
   monitor loop).  Python floats are modelled as rationals, datetimes as
   rational timestamps, and calendar dates as integer day indices.
   Mutating methods become functions returning the updated state. -/

/- ---------------- Trade simulator data model ----------------
   From src/polymarket_bot/utils/trade_simulator.py. -/

inductive SimulatedTradeStatus where
  | PENDING
  | MONITORING
  | RESOLVED
  | EXPIRED
  | CANCELLED
deriving DecidableEq, Repr

/-- One simulated trade, mirroring the SimulatedTrade dataclass
    (trade_simulator.py lines 28-78).  The metadata dict is modelled as an
    association list; it is never read by any logic under proof. -/
structure SimulatedTrade where
  trade_id : String
  strategy : String
  market_id : String
  token_id : String
  side : String
  entry_price : ℚ
  amount : ℚ
  timestamp : ℚ
  status : SimulatedTradeStatus
  market_question : String
  outcome : String
  edge : ℚ
  confidence : ℚ
  metadata : List (String × String)
  exit_price : Option ℚ := none
  exit_timestamp : Option ℚ := none
  resolution_outcome : Option String := none
  gross_pnl : ℚ := 0
  fees : ℚ := 0
  net_pnl : ℚ := 0
  roi_pct : ℚ := 0
  holding_time_seconds : Option ℚ := none
  would_have_exited : Bool := false
  exit_reason : Option String := none
deriving DecidableEq, Repr

/-- Per-trade effect of TradeSimulator.update_trade_exit
    (trade_simulator.py lines 173-216): records the hypothetical exit,
    moves the trade to MONITORING and computes a preliminary PnL.
    Note the source assigns fees only when gross_pnl is positive, so a
    non-positive preliminary gross PnL leaves the previous fees value. -/
def updateExitUpd (t : SimulatedTrade) (exit_price : ℚ) (exit_reason : String)
    (now : ℚ) : SimulatedTrade :=
  let cost_basis := t.entry_price * t.amount
  let gross_pnl :=
    if t.side = "BUY" then (exit_price - t.entry_price) * t.amount
    else (t.entry_price - exit_price) * t.amount
  let fees := if gross_pnl > 0 then gross_pnl * (2 / 100) else t.fees
  let net_pnl := gross_pnl - fees
  let roi_pct := if cost_basis > 0 then (net_pnl / cost_basis) * 100 else 0
  { t with
    would_have_exited := true
    exit_price := some exit_price
    exit_timestamp := some now
    exit_reason := some exit_reason
    status := SimulatedTradeStatus.MONITORING
    holding_time_seconds := some (now - t.timestamp)
    gross_pnl := gross_pnl
    fees := fees
    net_pnl := net_pnl
    roi_pct := roi_pct }

/-- Per-trade effect of TradeSimulator.resolve_trade
    (trade_simulator.py lines 218-254): settles the trade at the final
    settlement price.  For a BUY the settlement value is
    final_price * amount, for a SELL it is (1 - final_price) * amount.
    Fees are 2 percent of the settlement value when the gross PnL is
    positive, else zero. -/
def resolveTradeUpd (t : SimulatedTrade) (actual_outcome : String)
    (final_price : ℚ) : SimulatedTrade :=
  let cost_basis := t.entry_price * t.amount
  let gross_value :=
    if t.side = "BUY" then final_price * t.amount
    else (1 - final_price) * t.amount
  let gross_pnl := gross_value - cost_basis
  let fees := if gross_pnl > 0 then gross_value * (2 / 100) else 0
  let net_pnl := gross_pnl - fees
  let roi_pct := if cost_basis > 0 then (net_pnl / cost_basis) * 100 else 0
  { t with
    status := SimulatedTradeStatus.RESOLVED
    resolution_outcome := some actual_outcome
    gross_pnl := gross_pnl
    fees := fees
    net_pnl := net_pnl
    roi_pct := roi_pct }

/-- Session state of the simulator: the trade list plus the incrementally
    maintained counters (trade_simulator.py lines 93-102).  The output
    directory, session id and JSONL side effects carry no verified
    content and are omitted. -/
structure TradeSimulator where
  simulated_trades : List SimulatedTrade
  total_trades : ℕ
  resolved_trades : ℕ
  winning_trades : ℕ
  losing_trades : ℕ
  total_pnl : ℚ
deriving DecidableEq, Repr

def TradeSimulator.init : TradeSimulator :=
  { simulated_trades := []
    total_trades := 0
    resolved_trades := 0
    winning_trades := 0
    losing_trades := 0
    total_pnl := 0 }

/-- TradeSimulator.log_trade (lines 107-171): creates a PENDING trade,
    appends it and bumps total_trades.  The Python trade id is derived
    from the strategy name and the wall clock; both the id and the clock
    reading are passed in explicitly here. -/
def TradeSimulator.log_trade (sim : TradeSimulator) (trade_id strategy market_id
    token_id side : String) (entry_price amount : ℚ) (market_question
    outcome : String) (edge confidence : ℚ) (metadata : List (String × String))
    (now : ℚ) : TradeSimulator :=
  let trade : SimulatedTrade :=
    { trade_id := trade_id
      strategy := strategy
      market_id := market_id
      token_id := token_id
      side := side
      entry_price := entry_price
      amount := amount
      timestamp := now
      status := SimulatedTradeStatus.PENDING
      market_question := market_question
      outcome := outcome
      edge := edge
      confidence := confidence
      metadata := metadata }
  { sim with
    simulated_trades := sim.simulated_trades ++ [trade]
    total_trades := sim.total_trades + 1 }

/-- TradeSimulator.update_trade_exit at the session level.  Python mutates
    the trade object in place; here the trade is addressed by its index in
    simulated_trades (every trade the program holds a reference to lives
    in that list, having been created by log_trade). -/
def TradeSimulator.update_trade_exit (sim : TradeSimulator) (i : ℕ)
    (exit_price : ℚ) (exit_reason : String) (now : ℚ) : TradeSimulator :=
  match sim.simulated_trades[i]? with
  | none => sim
  | some t =>
    { sim with
      simulated_trades :=
        sim.simulated_trades.set i (updateExitUpd t exit_price exit_reason now) }

/-- TradeSimulator.resolve_trade at the session level (lines 218-270):
    applies the per-trade settlement and then unconditionally updates the
    session counters (lines 256-263).  There is no guard against the
    trade already being RESOLVED. -/
def TradeSimulator.resolve_trade (sim : TradeSimulator) (i : ℕ)
    (actual_outcome : String) (final_price : ℚ) : TradeSimulator :=
  match sim.simulated_trades[i]? with
  | none => sim
  | some t =>
    let t2 := resolveTradeUpd t actual_outcome final_price
    { sim with
      simulated_trades := sim.simulated_trades.set i t2
      resolved_trades := sim.resolved_trades + 1
      total_pnl := sim.total_pnl + t2.net_pnl
      winning_trades :=
        if t2.net_pnl > 0 then sim.winning_trades + 1 else sim.winning_trades
      losing_trades :=
        if t2.net_pnl > 0 then sim.losing_trades else sim.losing_trades + 1 }

def TradeSimulator.get_pending_trades (sim : TradeSimulator) :
    List SimulatedTrade :=
  sim.simulated_trades.filter
    (fun t => t.status == SimulatedTradeStatus.PENDING)

def TradeSimulator.get_monitoring_trades (sim : TradeSimulator) :
    List SimulatedTrade :=
  sim.simulated_trades.filter
    (fun t => t.status == SimulatedTradeStatus.MONITORING)

/-- The dict returned by TradeSimulator.get_statistics
    (trade_simulator.py lines 285-301), minus the session id string. -/
structure Statistics where
  total_trades : ℕ
  pending_trades : ℕ
  monitoring_trades : ℕ
  resolved_trades : ℕ
  winning_trades : ℕ
  losing_trades : ℕ
  win_rate : ℚ
  total_pnl : ℚ
  avg_pnl_per_trade : ℚ
deriving DecidableEq, Repr

def TradeSimulator.get_statistics (sim : TradeSimulator) : Statistics :=
  { total_trades := sim.total_trades
    pending_trades := sim.get_pending_trades.length
    monitoring_trades := sim.get_monitoring_trades.length
    resolved_trades := sim.resolved_trades
    winning_trades := sim.winning_trades
    losing_trades := sim.losing_trades
    win_rate :=
      if sim.resolved_trades > 0 then
        (sim.winning_trades : ℚ) / (sim.resolved_trades : ℚ) * 100
      else 0
    total_pnl := sim.total_pnl
    avg_pnl_per_trade :=
      if sim.resolved_trades > 0 then
        sim.total_pnl / (sim.resolved_trades : ℚ)
      else 0 }

/- Concrete trade used by the scenario claims: BUY at entry 0.40 for
   quantity 250. -/

def tradeScenario : SimulatedTrade :=
  { trade_id := "latency_1"
    strategy := "latency_arbitrage"
    market_id := "m1"
    token_id := "tok1"
    side := "BUY"
    entry_price := 2 / 5
    amount := 250
    timestamp := 0
    status := SimulatedTradeStatus.PENDING
    market_question := "q"
    outcome := "YES"
    edge := 1 / 20
    confidence := 1 / 2
    metadata := [] }

def simC1a : TradeSimulator :=
  TradeSimulator.init.log_trade "latency_1" "latency_arbitrage" "m1" "tok1"
    "BUY" (2 / 5) 250 "q" "YES" (1 / 20) (1 / 2) [] 0

def simC1b : TradeSimulator := simC1a.resolve_trade 0 "YES" 1

def simC1c : TradeSimulator := simC1b.resolve_trade 0 "NO" 0

/-- Claim C1: resolving a trade that is already RESOLVED is neither
    rejected nor a no-op.  After the first resolution (settlement 1) the
    session records one resolved winning trade with net PnL 145; a second
    resolve_trade call on the same trade with settlement 0 overwrites the
    recorded net PnL and resolution outcome and bumps every counter
    again: resolved_trades becomes 2, total_pnl 45 and losing_trades 1,
    contradicting the required idempotence. -/
theorem c1_double_resolution_changes_state :
    simC1b.resolved_trades = 1 ∧
    simC1b.winning_trades = 1 ∧
    simC1b.losing_trades = 0 ∧
    simC1b.total_pnl = 145 ∧
    simC1b.simulated_trades.map SimulatedTrade.net_pnl = [145] ∧
    simC1b.simulated_trades.map SimulatedTrade.resolution_outcome =
      [some "YES"] ∧
    simC1c.resolved_trades = 2 ∧
    simC1c.winning_trades = 1 ∧
    simC1c.losing_trades = 1 ∧
    simC1c.total_pnl = 45 ∧
    simC1c.simulated_trades.map SimulatedTrade.net_pnl = [-100] ∧
    simC1c.simulated_trades.map SimulatedTrade.resolution_outcome =
      [some "NO"] := by
  norm_num [simC1c, simC1b, simC1a, TradeSimulator.resolve_trade,
    TradeSimulator.log_trade, TradeSimulator.init, resolveTradeUpd]

/-- Claim C2 counterexample: at entry 0.40, amount 250, settlement 1.0
    the code charges the 2 percent fee on the settlement value (250), not
    on the gross profit (150): the recorded fee is 5 and the net PnL is
    145, not the claimed fee 3 and net 147. -/
theorem c2_fee_on_value_counterexample :
    (resolveTradeUpd tradeScenario "YES" 1).gross_pnl = 150 ∧
    (resolveTradeUpd tradeScenario "YES" 1).fees = 5 ∧
    (resolveTradeUpd tradeScenario "YES" 1).net_pnl = 145 ∧
    (resolveTradeUpd tradeScenario "YES" 1).net_pnl ≠ 147 ∧
    (resolveTradeUpd tradeScenario "YES" 1).fees ≠ 3 := by
  norm_num [resolveTradeUpd, tradeScenario]

/-- Claim C2 (amended): for every bought trade, resolve_trade records
    gross PnL settlementValue - costBasis with
    settlementValue = settlementPrice * amount and
    costBasis = entryPrice * amount, charges a fixed 2 percent fee on the
    settlement value exactly when the gross PnL is positive, and records
    net PnL = gross PnL - fee; for entry 0.40, amount 250, settlement 1.0
    this yields gross 150, fee 5, net 145 and ROI 145 percent. -/
theorem c2_buy_resolution_pnl (t : SimulatedTrade) (o : String) (p : ℚ)
    (hside : t.side = "BUY") (r : SimulatedTrade)
    (hr : r = resolveTradeUpd t o p) :
    r.gross_pnl = p * t.amount - t.entry_price * t.amount ∧
    r.fees = (if 0 < r.gross_pnl then p * t.amount * (2 / 100) else 0) ∧
    r.net_pnl = r.gross_pnl - r.fees ∧
    (resolveTradeUpd tradeScenario "YES" 1).gross_pnl = 150 ∧
    (resolveTradeUpd tradeScenario "YES" 1).fees = 5 ∧
    (resolveTradeUpd tradeScenario "YES" 1).net_pnl = 145 ∧
    (resolveTradeUpd tradeScenario "YES" 1).roi_pct = 145 := by
  subst hr
  refine ⟨?_, ?_, ?_, by norm_num [resolveTradeUpd, tradeScenario],
    by norm_num [resolveTradeUpd, tradeScenario],
    by norm_num [resolveTradeUpd, tradeScenario],
    by norm_num [resolveTradeUpd, tradeScenario]⟩
  · simp [resolveTradeUpd, hside]
  · simp [resolveTradeUpd, hside]
  · simp [resolveTradeUpd, hside]

/-- Claim C2 witness: the amended statement instantiated at the scenario
    trade itself. -/
theorem c2_buy_resolution_pnl_witness :
    tradeScenario.side = "BUY" ∧
    (resolveTradeUpd tradeScenario "YES" 1).net_pnl = 145 :=
  ⟨rfl, (c2_buy_resolution_pnl tradeScenario "YES" 1 rfl _ rfl).2.2.2.2.2.1⟩

/- ---------------- Risk manager ----------------
   From src/polymarket_bot/utils/risk_manager.py.  Calendar dates are
   modelled as integer day indices; a ledger record keeps the day its
   timestamp falls on. -/

/-- Modelled from the spec: the Position entity lives in
    polymarket_bot/models/position.py, which is not among the staged
    source files.  Spec section 3 fixes the attributes read here: entry
    price, quantity, and the invariant
    cost_basis = entry_price * quantity, fixed at creation.  The risk
    manager reads only cost_basis from each open position. -/
structure Position where
  entry_price : ℚ
  amount : ℚ
deriving DecidableEq, Repr

def Position.cost_basis (p : Position) : ℚ := p.entry_price * p.amount

/-- One entry of the daily PnL ledger (risk_manager.py lines 98-102). -/
structure PnlRecord where
  pnl : ℚ
  strategy : String
  day : ℤ
deriving DecidableEq, Repr

structure RiskManager where
  max_total_exposure_usd : ℚ
  max_positions : ℕ
  max_loss_per_day_usd : ℚ
  emergency_stop_loss_pct : ℚ
  max_position_size_usd : ℚ
  risk_per_trade : ℚ
  daily_pnl : List PnlRecord
  total_exposure : ℚ
  emergency_stop_triggered : Bool
deriving DecidableEq, Repr

/-- The constructor defaults of risk_manager.py lines 16-34. -/
def RiskManager.init : RiskManager :=
  { max_total_exposure_usd := 10000
    max_positions := 20
    max_loss_per_day_usd := 500
    emergency_stop_loss_pct := 1 / 10
    max_position_size_usd := 1000
    risk_per_trade := 2 / 100
    daily_pnl := []
    total_exposure := 0
    emergency_stop_triggered := false }

/-- RiskManager.get_today_pnl (lines 111-120): sum of ledger entries
    whose timestamp falls on the given day. -/
def RiskManager.get_today_pnl (rm : RiskManager) (today : ℤ) : ℚ :=
  (rm.daily_pnl.filter (fun r => r.day == today)).foldr (fun r acc => r.pnl + acc) 0

/-- RiskManager.can_open_position (lines 36-69).  The Python reason
    strings carry the numeric limit in a suffix; the suffix is elided
    here since no logic reads it back. -/
def RiskManager.can_open_position (rm : RiskManager) (position_size_usd : ℚ)
    (current_positions : List Position) (today : ℤ) : Bool × Option String :=
  if rm.emergency_stop_triggered then
    (false, some "Emergency stop triggered")
  else if current_positions.length ≥ rm.max_positions then
    (false, some "Max positions reached")
  else if position_size_usd > rm.max_position_size_usd then
    (false, some "Position size exceeds max")
  else if ((current_positions.map Position.cost_basis).foldr (fun c acc => c + acc) 0)
      + position_size_usd > rm.max_total_exposure_usd then
    (false, some "Total exposure would exceed max")
  else if rm.get_today_pnl today < -rm.max_loss_per_day_usd then
    (false, some "Daily loss limit reached")
  else
    (true, none)

/-- RiskManager.record_pnl (lines 96-109): appends one ledger entry and
    prunes entries older than seven days. -/
def RiskManager.record_pnl (rm : RiskManager) (pnl : ℚ) (strategy : String)
    (today : ℤ) : RiskManager :=
  let appended := rm.daily_pnl ++ [{ pnl := pnl, strategy := strategy, day := today }]
  { rm with daily_pnl := appended.filter (fun r => today - 7 ≤ r.day) }

/-- RiskManager.check_emergency_stop (lines 126-144): a zero starting
    balance returns immediately; otherwise the flag is raised exactly
    when the drawdown reaches the configured threshold. -/
def RiskManager.check_emergency_stop (rm : RiskManager)
    (account_balance starting_balance : ℚ) : RiskManager :=
  if starting_balance = 0 then rm
  else
    let drawdown := (starting_balance - account_balance) / starting_balance
    if drawdown ≥ rm.emergency_stop_loss_pct then
      { rm with emergency_stop_triggered := true }
    else rm

/-- RiskManager.reset_emergency_stop (lines 159-162). -/
def RiskManager.reset_emergency_stop (rm : RiskManager) : RiskManager :=
  { rm with emergency_stop_triggered := false }

/-- RiskManager.calculate_position_size (lines 71-94). -/
def RiskManager.calculate_position_size (rm : RiskManager)
    (account_balance edge : ℚ) (risk_per_trade : Option ℚ) : ℚ :=
  let rpt := risk_per_trade.getD rm.risk_per_trade
  min (account_balance * rpt) rm.max_position_size_usd

/-- The state-mutating operations of the risk manager other than the
    explicit reset: record_pnl and check_emergency_stop.  Every other
    method (can_open_position, calculate_position_size, get_today_pnl,
    get_total_pnl, get_risk_metrics) assigns no attribute and is embedded
    as a pure function. -/
inductive RMOp where
  | recordPnl (pnl : ℚ) (strategy : String) (today : ℤ)
  | checkStop (account_balance starting_balance : ℚ)
deriving Repr

def RMOp.apply (op : RMOp) (rm : RiskManager) : RiskManager :=
  match op with
  | RMOp.recordPnl pnl strategy today => rm.record_pnl pnl strategy today
  | RMOp.checkStop b s => rm.check_emergency_stop b s

/- Scenario states used by the risk-manager claims. -/

def p300 : Position := { entry_price := 3 / 5, amount := 500 }

def p250 : Position := { entry_price := 1 / 2, amount := 500 }

def rmScenario : RiskManager :=
  { RiskManager.init with max_total_exposure_usd := 500 }

def rmStopped : RiskManager :=
  { RiskManager.init with emergency_stop_triggered := true }

def rmLoss : RiskManager :=
  { RiskManager.init with
      daily_pnl := [{ pnl := -520, strategy := "latency", day := 0 }] }

/-- Claim C3: when the emergency stop is unset, the position count is
    below the maximum, the proposed size is within the per-position
    limit and todays PnL is within the daily-loss limit,
    can_open_position admits exactly when the open positions cost basis
    plus the proposed size stays within max_total_exposure_usd; and with
    open cost bases 300 and 250 against a 500 cap, a proposed 100
    position is rejected with the total-exposure reason. -/
theorem c3_total_exposure_gate (rm : RiskManager) (S : ℚ)
    (ps : List Position) (today : ℤ)
    (h1 : rm.emergency_stop_triggered = false)
    (h2 : ps.length < rm.max_positions)
    (h3 : S ≤ rm.max_position_size_usd)
    (h4 : -rm.max_loss_per_day_usd ≤ rm.get_today_pnl today) :
    ((rm.can_open_position S ps today).1 = true ↔
      ((ps.map Position.cost_basis).foldr (fun c acc => c + acc) 0) + S ≤
        rm.max_total_exposure_usd) ∧
    rmScenario.can_open_position 100 [p300, p250] 0 =
      (false, some "Total exposure would exceed max") := by
  constructor
  · have hstop : ¬ (rm.emergency_stop_triggered = true) := by simp [h1]
    have hcount : ¬ (ps.length ≥ rm.max_positions) := not_le.mpr h2
    have hsize : ¬ (S > rm.max_position_size_usd) := not_lt.mpr h3
    have hloss : ¬ (rm.get_today_pnl today < -rm.max_loss_per_day_usd) :=
      not_lt.mpr h4
    simp only [RiskManager.can_open_position, if_neg hstop, if_neg hcount,
      if_neg hsize]
    by_cases hexp : ((ps.map Position.cost_basis).foldr (fun c acc => c + acc) 0)
        + S > rm.max_total_exposure_usd
    · rw [if_pos hexp]
      exact iff_of_false (by simp) (not_le.mpr hexp)
    · rw [if_neg hexp, if_neg hloss]
      exact iff_of_true rfl (not_lt.mp hexp)
  · norm_num [RiskManager.can_open_position, rmScenario, RiskManager.init,
      RiskManager.get_today_pnl, p300, p250, Position.cost_basis]

/-- Claim C3 witness: the gate equivalence instantiated at the scenario
    state, where the exposure bound fails. -/
theorem c3_total_exposure_gate_witness :
    (rmScenario.can_open_position 100 [p300, p250] 0).1 = true ↔
      (([p300, p250].map Position.cost_basis).foldr (fun c acc => c + acc) 0)
        + 100 ≤ rmScenario.max_total_exposure_usd :=
  (c3_total_exposure_gate rmScenario 100 [p300, p250] 0 rfl
    (by norm_num [rmScenario, RiskManager.init])
    (by norm_num [rmScenario, RiskManager.init])
    (by norm_num [rmScenario, RiskManager.init, RiskManager.get_today_pnl])).1

/-- Claim C6: check_emergency_stop raises the flag whenever the starting
    balance is nonzero and the drawdown reaches the threshold; neither
    record_pnl nor check_emergency_stop (the only mutating operations
    besides the explicit reset) ever clears a set flag; and while the
    flag is set every can_open_position call is rejected, whatever the
    proposed size, open positions or recorded PnL. -/
theorem c6_emergency_stop_one_way :
    (∀ (rm : RiskManager) (b s : ℚ), s ≠ 0 →
        rm.emergency_stop_loss_pct ≤ (s - b) / s →
        (rm.check_emergency_stop b s).emergency_stop_triggered = true) ∧
    (∀ (rm : RiskManager) (op : RMOp), rm.emergency_stop_triggered = true →
        (op.apply rm).emergency_stop_triggered = true) ∧
    (∀ (rm : RiskManager) (S : ℚ) (ps : List Position) (today : ℤ),
        rm.emergency_stop_triggered = true →
        (rm.can_open_position S ps today).1 = false) := by
  refine ⟨?_, ?_, ?_⟩
  · intro rm b s hs hd
    simp only [RiskManager.check_emergency_stop, if_neg hs]
    rw [if_pos hd]
  · intro rm op h
    cases op with
    | recordPnl p st d => simpa [RMOp.apply, RiskManager.record_pnl] using h
    | checkStop b s =>
      simp only [RMOp.apply, RiskManager.check_emergency_stop]
      split_ifs <;> simp [h]
  · intro rm S ps today h
    simp [RiskManager.can_open_position, h]

/-- Claim C6 witness: a 20 percent drawdown from 100 to 80 trips the
    default 10 percent stop; recording PnL on a stopped manager keeps the
    flag; a stopped manager rejects a proposal. -/
theorem c6_emergency_stop_one_way_witness :
    (RiskManager.init.check_emergency_stop 80 100).emergency_stop_triggered
        = true ∧
    ((RMOp.recordPnl 5 "latency" 0).apply rmStopped).emergency_stop_triggered
        = true ∧
    (rmStopped.can_open_position 100 [] 0).1 = false :=
  ⟨c6_emergency_stop_one_way.1 RiskManager.init 80 100 (by norm_num)
      (by norm_num [RiskManager.init]),
   c6_emergency_stop_one_way.2.1 rmStopped (RMOp.recordPnl 5 "latency" 0) rfl,
   c6_emergency_stop_one_way.2.2 rmStopped 100 [] 0 rfl⟩

/-- The five admission gates in the order the spec fixes, each paired
    with its rejection reason.  Stated from the spec wording (reject in
    order: emergency stop, position count, per-position size, total
    exposure, daily loss) to be compared with can_open_position. -/
def gateChecks (rm : RiskManager) (S : ℚ) (ps : List Position) (today : ℤ) :
    List (Bool × String) :=
  [ (rm.emergency_stop_triggered, "Emergency stop triggered"),
    (decide (ps.length ≥ rm.max_positions), "Max positions reached"),
    (decide (S > rm.max_position_size_usd), "Position size exceeds max"),
    (decide (((ps.map Position.cost_basis).foldr (fun c acc => c + acc) 0) + S
      > rm.max_total_exposure_usd), "Total exposure would exceed max"),
    (decide (rm.get_today_pnl today < -rm.max_loss_per_day_usd),
      "Daily loss limit reached") ]

/-- First-failing-gate evaluation of an ordered gate list: the reason of
    the first gate whose condition holds, admission when none does. -/
def firstFailingGate : List (Bool × String) → Bool × Option String
  | [] => (true, none)
  | g :: rest => if g.1 then (false, some g.2) else firstFailingGate rest

/-- Claim C7: can_open_position is exactly the first-failing-gate
    evaluation of the five gates in the order emergency stop, position
    count, per-position size, total exposure, daily loss (so a rejection
    carries the first failing gates reason, and the check is a pure
    function of the state); and whenever todays recorded PnL is below
    the negated daily-loss limit every proposal is rejected. -/
theorem c7_gate_order_and_daily_loss :
    (∀ (rm : RiskManager) (S : ℚ) (ps : List Position) (today : ℤ),
        rm.can_open_position S ps today =
          firstFailingGate (gateChecks rm S ps today)) ∧
    (∀ (rm : RiskManager) (S : ℚ) (ps : List Position) (today : ℤ),
        rm.get_today_pnl today < -rm.max_loss_per_day_usd →
        (rm.can_open_position S ps today).1 = false) := by
  constructor
  · intro rm S ps today
    by_cases h1 : rm.emergency_stop_triggered
    · simp [RiskManager.can_open_position, gateChecks, firstFailingGate, h1]
    · by_cases h2 : ps.length ≥ rm.max_positions
      · simp [RiskManager.can_open_position, gateChecks, firstFailingGate, h1, h2]
      · by_cases h3 : S > rm.max_position_size_usd
        · simp [RiskManager.can_open_position, gateChecks, firstFailingGate,
            h1, h2, h3]
        · by_cases h4 : ((ps.map Position.cost_basis).foldr
              (fun c acc => c + acc) 0) + S > rm.max_total_exposure_usd
          · simp [RiskManager.can_open_position, gateChecks, firstFailingGate,
              h1, h2, h3, h4]
          · by_cases h5 : rm.get_today_pnl today < -rm.max_loss_per_day_usd
            · simp [RiskManager.can_open_position, gateChecks,
                firstFailingGate, h1, h2, h3, h4, h5]
            · simp [RiskManager.can_open_position, gateChecks,
                firstFailingGate, h1, h2, h3, h4, h5]
  · intro rm S ps today h
    simp only [RiskManager.can_open_position]
    split_ifs <;> simp_all

/-- Claim C7 witness: a ledger showing -520 realized today against the
    default 500 daily-loss limit rejects both a tiny and a huge proposal,
    and the first-failing-gate form agrees on the concrete call. -/
theorem c7_gate_order_and_daily_loss_witness :
    rmLoss.get_today_pnl 0 < -rmLoss.max_loss_per_day_usd ∧
    (rmLoss.can_open_position 3 [] 0).1 = false ∧
    (rmLoss.can_open_position 100000 [] 0).1 = false :=
  ⟨by norm_num [rmLoss, RiskManager.init, RiskManager.get_today_pnl],
   c7_gate_order_and_daily_loss.2 rmLoss 3 [] 0
     (by norm_num [rmLoss, RiskManager.init, RiskManager.get_today_pnl]),
   c7_gate_order_and_daily_loss.2 rmLoss 100000 [] 0
     (by norm_num [rmLoss, RiskManager.init, RiskManager.get_today_pnl])⟩

/-- Claim C9: with a zero starting balance check_emergency_stop returns
    the state unchanged for every account balance: the drawdown quotient
    is never formed and the emergency-stop flag is untouched, so a zero
    starting balance can never trip the stop. -/
theorem c9_check_emergency_stop_zero_start (rm : RiskManager) (b : ℚ) :
    rm.check_emergency_stop b 0 = rm := by
  simp [RiskManager.check_emergency_stop]

/- ---------------- Strategy run loop ----------------
   From src/polymarket_bot/strategies/latency_arbitrage.py (run, lines
   402-428; execute, lines 280-340) and binary_hedging.py (run, lines
   403-428).  Each loop iteration calls analyze; when analyze returns an
   opportunity the loop calls execute on it directly.  Execute sizes the
   position at a fixed 100 USD, places a market order and, on an order
   receipt, creates and adds exactly one Position.  Neither run nor
   execute consults RiskManager.can_open_position, which has no caller
   anywhere in the repository. -/

structure Opportunity where
  token_id : String
  current_price : ℚ
  edge : ℚ
deriving DecidableEq, Repr

/-- The Position-creating core of execute: on an order receipt one
    Position at the opportunity price with amount 100 / price. -/
def executeOpportunity (orderOk : Bool) (opp : Opportunity) : Option Position :=
  if orderOk then
    some { entry_price := opp.current_price, amount := 100 / opp.current_price }
  else none

/-- One iteration of the strategy run-loop body: the opportunity analyze
    returned (none when no opportunity was found), whether the venue
    accepted the order, and the strategy position list.  Returns the new
    position list and whether execute was invoked this iteration. -/
def runIteration (analyzed : Option Opportunity) (orderOk : Bool)
    (positions : List Position) : List Position × Bool :=
  match analyzed with
  | none => (positions, false)
  | some opp =>
    match executeOpportunity orderOk opp with
    | some pos => (positions ++ [pos], true)
    | none => (positions, true)

def oppC4 : Opportunity :=
  { token_id := "tok1", current_price := 1 / 2, edge := 1 / 20 }

/-- Claim C4: the run loop executes every opportunity analyze returns,
    with no Risk-Governor admission: an iteration on an opportunity
    invokes execute and creates a Position even while the emergency stop
    is set, a state in which RiskManager.can_open_position rejects every
    proposal; and in general execute is invoked exactly when analyze
    returned an opportunity, independent of any RiskManager state. -/
theorem c4_execute_without_risk_admission :
    (runIteration (some oppC4) true []).2 = true ∧
    (runIteration (some oppC4) true []).1.length = 1 ∧
    (rmStopped.can_open_position 100 [] 0).1 = false ∧
    (∀ (a : Option Opportunity) (ok : Bool) (ps : List Position),
        (runIteration a ok ps).2 = true ↔ a.isSome) := by
  refine ⟨by simp [runIteration, executeOpportunity],
    by simp [runIteration, executeOpportunity],
    by simp [RiskManager.can_open_position, rmStopped, RiskManager.init], ?_⟩
  intro a ok ps
  cases a <;> cases ok <;> simp [runIteration, executeOpportunity]

/- ---------------- Simulated-trade monitor loop ----------------
   From src/polymarket_bot/bot.py, PolymarketBot._monitor_simulated_trades
   (lines 245-285): each iteration walks the PENDING and MONITORING
   trades, reads the midpoint for the trades token and, when the price
   has reached a settlement boundary, resolves the trade. -/

/-- The per-trade body of the monitor loop (bot.py lines 259-273): a
    missing midpoint skips the trade; a midpoint at or above 0.99
    resolves to YES at settlement 1.0; one at or below 0.01 resolves to
    NO at settlement 0.0; anything between leaves the trade alone. -/
def monitorSimulatedTrade (sim : TradeSimulator) (i : ℕ)
    (current_price : Option ℚ) : TradeSimulator :=
  match current_price with
  | none => sim
  | some p =>
    if p ≥ 99 / 100 then sim.resolve_trade i "YES" 1
    else if p ≤ 1 / 100 then sim.resolve_trade i "NO" 0
    else sim

lemma resolve_trade_field_maps (sim : TradeSimulator) (i : ℕ)
    (o : String) (fp : ℚ) (hi : i < sim.simulated_trades.length) :
    (sim.resolve_trade i o fp).simulated_trades.map SimulatedTrade.status =
      (sim.simulated_trades.map SimulatedTrade.status).set i
        SimulatedTradeStatus.RESOLVED ∧
    (sim.resolve_trade i o fp).simulated_trades.map
        SimulatedTrade.resolution_outcome =
      (sim.simulated_trades.map SimulatedTrade.resolution_outcome).set i
        (some o) := by
  simp only [TradeSimulator.resolve_trade, List.getElem?_eq_getElem hi]
  constructor <;> · rw [List.map_set]; simp [resolveTradeUpd]

/-- Claim C8: for a PENDING or MONITORING trade whose midpoint p is
    observed by the monitor loop, a midpoint of at least 0.99 resolves
    it to the affirmative outcome YES at settlement value 1.0, a
    midpoint of at most 0.01 resolves it to the negative outcome NO at
    settlement value 0.0, and any midpoint strictly between leaves the
    simulator state, hence the trade, untouched. -/
theorem c8_settlement_boundary_resolution (sim : TradeSimulator) (i : ℕ)
    (p : ℚ) (hi : i < sim.simulated_trades.length)
    (hst : (sim.simulated_trades.get ⟨i, hi⟩).status =
        SimulatedTradeStatus.PENDING ∨
      (sim.simulated_trades.get ⟨i, hi⟩).status =
        SimulatedTradeStatus.MONITORING) :
    (99 / 100 ≤ p →
      monitorSimulatedTrade sim i (some p) = sim.resolve_trade i "YES" 1 ∧
      (monitorSimulatedTrade sim i (some p)).simulated_trades.map
          SimulatedTrade.status =
        (sim.simulated_trades.map SimulatedTrade.status).set i
          SimulatedTradeStatus.RESOLVED ∧
      (monitorSimulatedTrade sim i (some p)).simulated_trades.map
          SimulatedTrade.resolution_outcome =
        (sim.simulated_trades.map SimulatedTrade.resolution_outcome).set i
          (some "YES")) ∧
    (p ≤ 1 / 100 →
      monitorSimulatedTrade sim i (some p) = sim.resolve_trade i "NO" 0 ∧
      (monitorSimulatedTrade sim i (some p)).simulated_trades.map
          SimulatedTrade.status =
        (sim.simulated_trades.map SimulatedTrade.status).set i
          SimulatedTradeStatus.RESOLVED ∧
      (monitorSimulatedTrade sim i (some p)).simulated_trades.map
          SimulatedTrade.resolution_outcome =
        (sim.simulated_trades.map SimulatedTrade.resolution_outcome).set i
          (some "NO")) ∧
    (1 / 100 < p → p < 99 / 100 →
      monitorSimulatedTrade sim i (some p) = sim) := by
  refine ⟨?_, ?_, ?_⟩
  · intro hp
    have hm : monitorSimulatedTrade sim i (some p) =
        sim.resolve_trade i "YES" 1 := by
      simp only [monitorSimulatedTrade]
      rw [if_pos hp]
    refine ⟨hm, ?_, ?_⟩
    · rw [hm]; exact (resolve_trade_field_maps sim i "YES" 1 hi).1
    · rw [hm]; exact (resolve_trade_field_maps sim i "YES" 1 hi).2
  · intro hp
    have hnp : ¬ (99 / 100 ≤ p) := by
      intro hc
      have : (99 : ℚ) / 100 ≤ 1 / 100 := le_trans hc hp
      norm_num at this
    have hm : monitorSimulatedTrade sim i (some p) =
        sim.resolve_trade i "NO" 0 := by
      simp only [monitorSimulatedTrade]
      rw [if_neg hnp, if_pos hp]
    refine ⟨hm, ?_, ?_⟩
    · rw [hm]; exact (resolve_trade_field_maps sim i "NO" 0 hi).1
    · rw [hm]; exact (resolve_trade_field_maps sim i "NO" 0 hi).2
  · intro hlo hhigh
    have h1 : ¬ (99 / 100 ≤ p) := not_le.mpr hhigh
    have h2 : ¬ (p ≤ 1 / 100) := not_le.mpr hlo
    simp only [monitorSimulatedTrade]
    rw [if_neg h1, if_neg h2]

/- ---------------- Statistics consistency (session invariant) ---------- -/

/-- A trade counted as resolved: status RESOLVED. -/
def pResolved (t : SimulatedTrade) : Bool :=
  t.status == SimulatedTradeStatus.RESOLVED

/-- A resolved winning trade: status RESOLVED and positive net PnL. -/
def pWinner (t : SimulatedTrade) : Bool :=
  (t.status == SimulatedTradeStatus.RESOLVED) && decide (t.net_pnl > 0)

/-- A resolved losing trade: status RESOLVED and non-positive net PnL. -/
def pLoser (t : SimulatedTrade) : Bool :=
  (t.status == SimulatedTradeStatus.RESOLVED) && decide (t.net_pnl ≤ 0)

/-- The consistency law: every incrementally maintained counter equals
    the same quantity recomputed by folding over the full trade list. -/
def countersRecomputed (s : TradeSimulator) : Prop :=
  s.total_trades = s.simulated_trades.length ∧
  s.resolved_trades = (s.simulated_trades.filter pResolved).length ∧
  s.total_pnl =
    ((s.simulated_trades.filter pResolved).map SimulatedTrade.net_pnl).sum ∧
  s.winning_trades = (s.simulated_trades.filter pWinner).length ∧
  s.losing_trades = (s.simulated_trades.filter pLoser).length

lemma filter_set_both_false {α : Type} (p : α → Bool) (a : α)
    (h2 : p a = false) :
    ∀ (l : List α) (i : ℕ) (hi : i < l.length),
      p l[i] = false → (l.set i a).filter p = l.filter p := by
  intro l
  induction l with
  | nil => intro i hi h1; exact absurd hi (by simp)
  | cons x xs ih =>
    intro i hi h1
    cases i with
    | zero =>
      have hx : p x = false := h1
      simp [List.filter_cons, hx, h2]
    | succ n =>
      have hn : n < xs.length := by simpa [Nat.succ_lt_succ_iff] using hi
      have h1x : p xs[n] = false := h1
      simp [List.filter_cons, ih n hn h1x]

lemma filter_set_perm_cons {α : Type} (p : α → Bool) (a : α)
    (h2 : p a = true) :
    ∀ (l : List α) (i : ℕ) (hi : i < l.length),
      p l[i] = false →
      ((l.set i a).filter p).Perm (a :: l.filter p) := by
  intro l
  induction l with
  | nil => intro i hi h1; exact absurd hi (by simp)
  | cons x xs ih =>
    intro i hi h1
    cases i with
    | zero =>
      have hx : p x = false := h1
      simp [List.filter_cons, hx, h2]
    | succ n =>
      have hn : n < xs.length := by simpa [Nat.succ_lt_succ_iff] using hi
      have h1x : p xs[n] = false := h1
      have hperm := ih n hn h1x
      cases hx : p x with
      | true =>
        simp only [List.set_cons_succ, List.filter_cons, hx, if_true]
        exact (hperm.cons x).trans (List.Perm.swap a x (xs.filter p))
      | false =>
        simp only [List.set_cons_succ, List.filter_cons, hx,
          Bool.false_eq_true, if_false]
        exact hperm

lemma length_filter_set_add_one {α : Type} (p : α → Bool) (a : α)
    (h2 : p a = true) (l : List α) (i : ℕ) (hi : i < l.length)
    (h1 : p l[i] = false) :
    ((l.set i a).filter p).length = (l.filter p).length + 1 := by
  simpa using (filter_set_perm_cons p a h2 l i hi h1).length_eq

lemma sum_map_filter_set {α : Type} (p : α → Bool) (f : α → ℚ) (a : α)
    (h2 : p a = true) (l : List α) (i : ℕ) (hi : i < l.length)
    (h1 : p l[i] = false) :
    (((l.set i a).filter p).map f).sum = f a + ((l.filter p).map f).sum := by
  have h := (filter_set_perm_cons p a h2 l i hi h1).map f
  simpa using h.sum_eq

lemma resolveTradeUpd_status (t : SimulatedTrade) (oc : String) (fp : ℚ) :
    (resolveTradeUpd t oc fp).status = SimulatedTradeStatus.RESOLVED := by
  simp [resolveTradeUpd]

lemma updateExitUpd_status (t : SimulatedTrade) (ep : ℚ) (er : String)
    (now : ℚ) :
    (updateExitUpd t ep er now).status = SimulatedTradeStatus.MONITORING := by
  simp [updateExitUpd]

lemma unresolved_preds_false {t : SimulatedTrade}
    (h : t.status = SimulatedTradeStatus.PENDING ∨
         t.status = SimulatedTradeStatus.MONITORING) :
    pResolved t = false ∧ pWinner t = false ∧ pLoser t = false := by
  rcases h with h | h <;> simp [pResolved, pWinner, pLoser, h]

/-- The simulator operations as the program drives them: log_trade from a
    strategy in testing mode; update_trade_exit on a PENDING or
    MONITORING trade (its only validity per spec section 4.3 — the method
    has no call site in the repository); resolve_trade on a PENDING or
    MONITORING trade, exactly the trades the monitor loop iterates
    (bot.py lines 256-273). -/
inductive SimStep : TradeSimulator → TradeSimulator → Prop where
  | log (sim : TradeSimulator)
      (trade_id strategy market_id token_id side : String)
      (entry_price amount : ℚ) (market_question outcome : String)
      (edge confidence : ℚ) (metadata : List (String × String)) (now : ℚ) :
      SimStep sim (sim.log_trade trade_id strategy market_id token_id side
        entry_price amount market_question outcome edge confidence metadata
        now)
  | update_exit (sim : TradeSimulator) (i : ℕ) (exit_price : ℚ)
      (exit_reason : String) (now : ℚ)
      (hi : i < sim.simulated_trades.length)
      (hs : sim.simulated_trades[i].status =
          SimulatedTradeStatus.PENDING ∨
        sim.simulated_trades[i].status =
          SimulatedTradeStatus.MONITORING) :
      SimStep sim (sim.update_trade_exit i exit_price exit_reason now)
  | resolve (sim : TradeSimulator) (i : ℕ) (actual_outcome : String)
      (final_price : ℚ) (hi : i < sim.simulated_trades.length)
      (hs : sim.simulated_trades[i].status =
          SimulatedTradeStatus.PENDING ∨
        sim.simulated_trades[i].status =
          SimulatedTradeStatus.MONITORING) :
      SimStep sim (sim.resolve_trade i actual_outcome final_price)

/-- The simulator states a testing-mode session can reach from a fresh
    simulator. -/
inductive SimReachable : TradeSimulator → Prop where
  | init : SimReachable TradeSimulator.init
  | step (s s2 : TradeSimulator) :
      SimReachable s → SimStep s s2 → SimReachable s2

lemma update_trade_exit_eq (s : TradeSimulator) (i : ℕ) (ep : ℚ)
    (er : String) (now : ℚ) (hi : i < s.simulated_trades.length) :
    s.update_trade_exit i ep er now =
      { s with
        simulated_trades := s.simulated_trades.set i
          (updateExitUpd s.simulated_trades[i] ep er now) } := by
  simp only [TradeSimulator.update_trade_exit, List.getElem?_eq_getElem hi]

lemma resolve_trade_eq (s : TradeSimulator) (i : ℕ) (oc : String) (fp : ℚ)
    (hi : i < s.simulated_trades.length) :
    s.resolve_trade i oc fp =
      { s with
        simulated_trades := s.simulated_trades.set i
          (resolveTradeUpd s.simulated_trades[i] oc fp)
        resolved_trades := s.resolved_trades + 1
        total_pnl := s.total_pnl +
          (resolveTradeUpd s.simulated_trades[i] oc fp).net_pnl
        winning_trades :=
          if (resolveTradeUpd s.simulated_trades[i] oc fp).net_pnl > 0
          then s.winning_trades + 1 else s.winning_trades
        losing_trades :=
          if (resolveTradeUpd s.simulated_trades[i] oc fp).net_pnl > 0
          then s.losing_trades else s.losing_trades + 1 } := by
  simp only [TradeSimulator.resolve_trade, List.getElem?_eq_getElem hi]

lemma countersRecomputed_log (s : TradeSimulator) (h : countersRecomputed s)
    (tid st mid tok side : String) (ep am : ℚ) (mq oc : String) (ed cf : ℚ)
    (md : List (String × String)) (now : ℚ) :
    countersRecomputed
      (s.log_trade tid st mid tok side ep am mq oc ed cf md now) := by
  obtain ⟨h1, h2, h3, h4, h5⟩ := h
  refine ⟨?_, ?_, ?_, ?_, ?_⟩ <;>
    simp [TradeSimulator.log_trade, List.filter_append, pResolved, pWinner,
      pLoser, h1, h2, h3, h4, h5]

lemma countersRecomputed_update_exit (s : TradeSimulator)
    (h : countersRecomputed s) (i : ℕ) (ep : ℚ) (er : String) (now : ℚ)
    (hi : i < s.simulated_trades.length)
    (hs : s.simulated_trades[i].status =
        SimulatedTradeStatus.PENDING ∨
      s.simulated_trades[i].status =
        SimulatedTradeStatus.MONITORING) :
    countersRecomputed (s.update_trade_exit i ep er now) := by
  obtain ⟨h1, h2, h3, h4, h5⟩ := h
  obtain ⟨ho1, ho2, ho3⟩ := unresolved_preds_false hs
  have hust := updateExitUpd_status s.simulated_trades[i] ep er now
  have hn1 : pResolved (updateExitUpd s.simulated_trades[i] ep er now)
      = false := by simp [pResolved, hust]
  have hn2 : pWinner (updateExitUpd s.simulated_trades[i] ep er now)
      = false := by simp [pWinner, hust]
  have hn3 : pLoser (updateExitUpd s.simulated_trades[i] ep er now)
      = false := by simp [pLoser, hust]
  rw [update_trade_exit_eq s i ep er now hi]
  refine ⟨?_, ?_, ?_, ?_, ?_⟩
  · show s.total_trades =
      (s.simulated_trades.set i
        (updateExitUpd s.simulated_trades[i] ep er now)).length
    simpa [List.length_set] using h1
  · show s.resolved_trades = _
    rw [filter_set_both_false pResolved _ hn1 s.simulated_trades i hi ho1]
    exact h2
  · show s.total_pnl = _
    rw [filter_set_both_false pResolved _ hn1 s.simulated_trades i hi ho1]
    exact h3
  · show s.winning_trades = _
    rw [filter_set_both_false pWinner _ hn2 s.simulated_trades i hi ho2]
    exact h4
  · show s.losing_trades = _
    rw [filter_set_both_false pLoser _ hn3 s.simulated_trades i hi ho3]
    exact h5

lemma countersRecomputed_resolve (s : TradeSimulator)
    (h : countersRecomputed s) (i : ℕ) (oc : String) (fp : ℚ)
    (hi : i < s.simulated_trades.length)
    (hs : s.simulated_trades[i].status =
        SimulatedTradeStatus.PENDING ∨
      s.simulated_trades[i].status =
        SimulatedTradeStatus.MONITORING) :
    countersRecomputed (s.resolve_trade i oc fp) := by
  obtain ⟨h1, h2, h3, h4, h5⟩ := h
  obtain ⟨ho1, ho2, ho3⟩ := unresolved_preds_false hs
  have hrst := resolveTradeUpd_status s.simulated_trades[i] oc fp
  rw [resolve_trade_eq s i oc fp hi]
  have hn1 : pResolved (resolveTradeUpd s.simulated_trades[i] oc fp)
      = true := by simp [pResolved, hrst]
  by_cases hw :
      (resolveTradeUpd s.simulated_trades[i] oc fp).net_pnl > 0
  · have hn2 : pWinner (resolveTradeUpd s.simulated_trades[i] oc fp)
        = true := by simp [pWinner, hrst, hw]
    have hn3 : pLoser (resolveTradeUpd s.simulated_trades[i] oc fp)
        = false := by
      simp only [pLoser, hrst, beq_self_eq_true, Bool.true_and,
        decide_eq_false_iff_not, not_le]
      exact hw
    refine ⟨?_, ?_, ?_, ?_, ?_⟩
    · show s.total_trades = _
      simpa [List.length_set] using h1
    · show s.resolved_trades + 1 = _
      rw [length_filter_set_add_one pResolved _ hn1 s.simulated_trades i hi ho1,
        h2]
    · show s.total_pnl + _ = _
      rw [sum_map_filter_set pResolved SimulatedTrade.net_pnl _ hn1
        s.simulated_trades i hi ho1, ← h3]
      exact add_comm _ _
    · show (if _ > (0 : ℚ) then s.winning_trades + 1 else s.winning_trades) = _
      rw [if_pos hw,
        length_filter_set_add_one pWinner _ hn2 s.simulated_trades i hi ho2, h4]
    · show (if _ > (0 : ℚ) then s.losing_trades else s.losing_trades + 1) = _
      rw [if_pos hw, filter_set_both_false pLoser _ hn3 s.simulated_trades i hi ho3]
      exact h5
  · have hn2 : pWinner (resolveTradeUpd s.simulated_trades[i] oc fp)
        = false := by
      simp only [pWinner, hrst, beq_self_eq_true, Bool.true_and,
        decide_eq_false_iff_not, not_lt]
      exact not_lt.mp hw
    have hn3 : pLoser (resolveTradeUpd s.simulated_trades[i] oc fp)
        = true := by simp [pLoser, hrst, not_lt.mp hw]
    refine ⟨?_, ?_, ?_, ?_, ?_⟩
    · show s.total_trades = _
      simpa [List.length_set] using h1
    · show s.resolved_trades + 1 = _
      rw [length_filter_set_add_one pResolved _ hn1 s.simulated_trades i hi ho1,
        h2]
    · show s.total_pnl + _ = _
      rw [sum_map_filter_set pResolved SimulatedTrade.net_pnl _ hn1
        s.simulated_trades i hi ho1, ← h3]
      exact add_comm _ _
    · show (if _ > (0 : ℚ) then s.winning_trades + 1 else s.winning_trades) = _
      rw [if_neg hw, filter_set_both_false pWinner _ hn2 s.simulated_trades i hi ho2]
      exact h4
    · show (if _ > (0 : ℚ) then s.losing_trades else s.losing_trades + 1) = _
      rw [if_neg hw,
        length_filter_set_add_one pLoser _ hn3 s.simulated_trades i hi ho3, h5]

lemma simReachable_counters (s : TradeSimulator) (h : SimReachable s) :
    countersRecomputed s := by
  induction h with
  | init => exact ⟨rfl, rfl, rfl, rfl, rfl⟩
  | step s s2 _ hstep ih =>
    cases hstep with
    | log tid st mid tok side ep am mq oc ed cf md now =>
      exact countersRecomputed_log s ih tid st mid tok side ep am mq oc ed cf
        md now
    | update_exit i ep er now hi hs =>
      exact countersRecomputed_update_exit s ih i ep er now hi hs
    | resolve i oc fp hi hs =>
      exact countersRecomputed_resolve s ih i oc fp hi hs

/-- Claim C5: at every reachable point of a simulator session the
    counters get_statistics reports equal the same quantities recomputed
    from the full simulated_trades list: total_trades is the list length,
    resolved_trades the number of RESOLVED trades, total_pnl the sum of
    net PnL over the RESOLVED trades, and the winning and losing counts
    the numbers of RESOLVED trades with positive and with non-positive
    net PnL. -/
theorem c5_statistics_recompute_consistency (s : TradeSimulator)
    (h : SimReachable s) :
    (s.get_statistics).total_trades = s.simulated_trades.length ∧
    (s.get_statistics).resolved_trades =
      (s.simulated_trades.filter pResolved).length ∧
    (s.get_statistics).total_pnl =
      ((s.simulated_trades.filter pResolved).map SimulatedTrade.net_pnl).sum ∧
    (s.get_statistics).winning_trades =
      (s.simulated_trades.filter pWinner).length ∧
    (s.get_statistics).losing_trades =
      (s.simulated_trades.filter pLoser).length := by
  have hc := simReachable_counters s h
  obtain ⟨h1, h2, h3, h4, h5⟩ := hc
  exact ⟨h1, h2, h3, h4, h5⟩

/-- Claim C5 witness: the session that logs one trade and resolves it at
    settlement 1 is reachable, and its reported counters match the
    recomputation. -/
theorem c5_statistics_recompute_consistency_witness :
    (simC1b.get_statistics).resolved_trades =
      (simC1b.simulated_trades.filter pResolved).length ∧
    (simC1b.get_statistics).total_trades = simC1b.simulated_trades.length := by
  have h1 : SimReachable simC1a :=
    SimReachable.step TradeSimulator.init simC1a SimReachable.init
      (SimStep.log TradeSimulator.init "latency_1" "latency_arbitrage" "m1"
        "tok1" "BUY" (2 / 5) 250 "q" "YES" (1 / 20) (1 / 2) [] 0)
  have hi0 : 0 < simC1a.simulated_trades.length := by
    simp [simC1a, TradeSimulator.log_trade, TradeSimulator.init]
  have hst0 : simC1a.simulated_trades[0].status =
      SimulatedTradeStatus.PENDING ∨
    simC1a.simulated_trades[0].status =
      SimulatedTradeStatus.MONITORING := Or.inl rfl
  have h2 : SimReachable simC1b :=
    SimReachable.step simC1a simC1b h1
      (SimStep.resolve simC1a 0 "YES" 1 hi0 hst0)
  exact ⟨(c5_statistics_recompute_consistency simC1b h2).2.1,
    (c5_statistics_recompute_consistency simC1b h2).1⟩

/-- Claim C8 witness: on the one-trade session, a midpoint of 1 resolves
    the trade to YES at settlement 1, and a midpoint of one half leaves
    the simulator untouched. -/
theorem c8_settlement_boundary_resolution_witness :
    monitorSimulatedTrade simC1a 0 (some 1) = simC1a.resolve_trade 0 "YES" 1 ∧
    monitorSimulatedTrade simC1a 0 (some (1 / 2)) = simC1a := by
  have hi0 : 0 < simC1a.simulated_trades.length := by
    simp [simC1a, TradeSimulator.log_trade, TradeSimulator.init]
  have hst0 : (simC1a.simulated_trades.get ⟨0, hi0⟩).status =
      SimulatedTradeStatus.PENDING ∨
    (simC1a.simulated_trades.get ⟨0, hi0⟩).status =
      SimulatedTradeStatus.MONITORING := Or.inl rfl
  exact ⟨((c8_settlement_boundary_resolution simC1a 0 1 hi0 hst0).1
      (by norm_num)).1,
    (c8_settlement_boundary_resolution simC1a 0 (1 / 2) hi0 hst0).2.2
      (by norm_num) (by norm_num)⟩

/-- Claim C10: update_trade_exit touches only the addressed trade: every
    session counter and every other list entry is unchanged, while the
    addressed trade moves to MONITORING with its exit price, exit
    timestamp, exit reason, exit flag and holding time filled in. -/
theorem c10_update_exit_frame (sim : TradeSimulator) (i : ℕ) (ep : ℚ)
    (er : String) (now : ℚ) (hi : i < sim.simulated_trades.length)
    (s2 : TradeSimulator) (hs2 : s2 = sim.update_trade_exit i ep er now) :
    s2.total_trades = sim.total_trades ∧
    s2.resolved_trades = sim.resolved_trades ∧
    s2.winning_trades = sim.winning_trades ∧
    s2.losing_trades = sim.losing_trades ∧
    s2.total_pnl = sim.total_pnl ∧
    s2.simulated_trades.length = sim.simulated_trades.length ∧
    (∀ j : ℕ, j ≠ i →
      s2.simulated_trades[j]? = sim.simulated_trades[j]?) ∧
    s2.simulated_trades[i]? =
      some (updateExitUpd sim.simulated_trades[i] ep er now) ∧
    (updateExitUpd sim.simulated_trades[i] ep er now).status =
      SimulatedTradeStatus.MONITORING ∧
    (updateExitUpd sim.simulated_trades[i] ep er now).exit_price = some ep ∧
    (updateExitUpd sim.simulated_trades[i] ep er now).exit_timestamp =
      some now ∧
    (updateExitUpd sim.simulated_trades[i] ep er now).exit_reason = some er ∧
    (updateExitUpd sim.simulated_trades[i] ep er now).would_have_exited =
      true ∧
    (updateExitUpd sim.simulated_trades[i] ep er now).holding_time_seconds =
      some (now - sim.simulated_trades[i].timestamp) := by
  subst hs2
  rw [update_trade_exit_eq sim i ep er now hi]
  refine ⟨rfl, rfl, rfl, rfl, rfl, by simp [List.length_set], ?_, ?_,
    updateExitUpd_status sim.simulated_trades[i] ep er now,
    by simp [updateExitUpd], by simp [updateExitUpd], by simp [updateExitUpd],
    by simp [updateExitUpd], by simp [updateExitUpd]⟩
  · intro j hj
    show (sim.simulated_trades.set i
      (updateExitUpd sim.simulated_trades[i] ep er now))[j]? = _
    exact List.getElem?_set_ne (Ne.symm hj)
  · show (sim.simulated_trades.set i
      (updateExitUpd sim.simulated_trades[i] ep er now))[i]? = _
    exact List.getElem?_set_eq_of_lt _ hi

/-- Claim C10 witness: updating the exit of the single logged trade keeps
    every counter and moves the trade to MONITORING. -/
theorem c10_update_exit_frame_witness :
    (simC1a.update_trade_exit 0 (1 / 2) "take profit" 5).total_pnl =
      simC1a.total_pnl ∧
    (simC1a.update_trade_exit 0 (1 / 2) "take profit" 5).resolved_trades =
      simC1a.resolved_trades ∧
    (updateExitUpd simC1a.simulated_trades[0] (1 / 2) "take profit" 5).status =
      SimulatedTradeStatus.MONITORING := by
  have hi0 : 0 < simC1a.simulated_trades.length := by
    simp [simC1a, TradeSimulator.log_trade, TradeSimulator.init]
  exact ⟨(c10_update_exit_frame simC1a 0 (1 / 2) "take profit" 5 hi0 _
      rfl).2.2.2.2.1,
    (c10_update_exit_frame simC1a 0 (1 / 2) "take profit" 5 hi0 _ rfl).2.1,
    (c10_update_exit_frame simC1a 0 (1 / 2) "take profit" 5 hi0 _
      rfl).2.2.2.2.2.2.2.2.1⟩
